import Mathlib

/-!
Verification of the fraud-scoring core of the credit-card demo app
(`src/app.py`).  The scoring function `analyze_transaction` and the
customer-statistics lookup are embedded shallowly: amounts, thresholds
and scores are rationals, the indicator messages are an inductive type
abstracting the human-readable strings, and the pandas data frame is a
list of rows.
-/

namespace FraudApp

/-- Per-customer aggregate statistics, as built in `analyze_transaction`
(`src/app.py` lines 91-108).  `transaction_count` is a non-negative
integer; the amount fields are rationals. -/
structure CustomerStatistics where
  transaction_count : ℕ
  avg_amount : ℚ
  max_amount : ℚ
  min_amount : ℚ
  total_amount : ℚ
  deriving Repr, DecidableEq

/-- The four indicator messages that `analyze_transaction` can append to
`fraud_indicators` (`src/app.py` lines 117, 119, 123, 128, 130), with the
formatted numeric value kept as data. -/
inductive FraudIndicator where
  /-- "Amount is \x7bratio:.1f\x7dx higher than the customer average" -/
  | higherThanAvg (r : ℚ)
  /-- "High amount for a new customer" -/
  | highAmountNewCustomer
  /-- "Amount is \x7bratio:.1f\x7dx higher than the customer maximum" -/
  | higherThanMax (r : ℚ)
  /-- "Amount exceeds the customer maximum" -/
  | exceedsMax
  deriving Repr, DecidableEq

/-- The dictionary returned by `analyze_transaction`
(`src/app.py` lines 169-177). -/
structure RiskAssessment where
  predicted_fraud : Bool
  fraud_score : ℚ
  threshold : ℚ
  customer_stats : CustomerStatistics
  fraud_indicators : List FraudIndicator
  ratioAvgOpt : Option ℚ
  ratioMaxOpt : Option ℚ
  deriving Repr, DecidableEq

/-- The value held by the Python variable `amount_to_avg_ratio`
(`src/app.py` lines 114-121): the quotient when `avg_amount > 0`,
otherwise `0`. -/
def avgRatioVal (stats : CustomerStatistics) (amount : ℚ) : ℚ :=
  if stats.avg_amount > 0 then amount / stats.avg_amount else 0

/-- The value held by the Python variable `amount_to_max_ratio`
(`src/app.py` lines 125-132): the quotient when `max_amount > 0`,
otherwise `0`. -/
def maxRatioVal (stats : CustomerStatistics) (amount : ℚ) : ℚ :=
  if stats.max_amount > 0 then amount / stats.max_amount else 0

/-- The fraud-scoring function, `analyze_transaction` of `src/app.py`
lines 110-177, after the customer statistics have been resolved.  The
score accumulation `s1`-`s4` mirrors the sequential `fraud_score +=`
statements of lines 135-156, the cap is line 159 and the loyalty
adjustment lines 162-163. -/
def analyze_transaction (stats : CustomerStatistics) (amount threshold : ℚ) :
    RiskAssessment :=
  let ratioAvg : ℚ := avgRatioVal stats amount
  let avgInds : List FraudIndicator :=
    if stats.avg_amount > 0 then
      if ratioAvg > 5 then [.higherThanAvg ratioAvg]
      else if ratioAvg > 3 then [.higherThanAvg ratioAvg]
      else []
    else
      if amount > 1000 then [.highAmountNewCustomer] else []
  let ratioMax : ℚ := maxRatioVal stats amount
  let maxInds : List FraudIndicator :=
    if stats.max_amount > 0 then
      if ratioMax > 1.5 then [.higherThanMax ratioMax]
      else if ratioMax > 1 then [.exceedsMax]
      else []
    else []
  let s1 : ℚ := if stats.transaction_count < 1 then 0 + 0.5 else 0
  let s2 : ℚ := if ratioAvg > 5 then s1 + 0.3 else if ratioAvg > 3 then s1 + 0.2 else s1
  let s3 : ℚ := if ratioMax > 1.5 then s2 + 0.4 else if ratioMax > 1 then s2 + 0.2 else s2
  let s4 : ℚ := if amount > 5000 then s3 + 0.3 else if amount > 1000 then s3 + 0.1 else s3
  let capped : ℚ := min s4 1
  let fraud_score : ℚ := if stats.transaction_count > 10 then capped * 0.8 else capped
  { predicted_fraud := decide (fraud_score > threshold)
    fraud_score := fraud_score
    threshold := threshold
    customer_stats := stats
    fraud_indicators := avgInds ++ maxInds
    ratioAvgOpt := if stats.avg_amount > 0 then some ratioAvg else none
    ratioMaxOpt := if stats.max_amount > 0 then some ratioMax else none }

/-- The `+0.5` new-customer contribution (`src/app.py` lines 138-139). -/
def newCustomerContrib (stats : CustomerStatistics) : ℚ :=
  if stats.transaction_count < 1 then 0.5 else 0

/-- The average-ratio contribution (`src/app.py` lines 142-145). -/
def avgContrib (stats : CustomerStatistics) (amount : ℚ) : ℚ :=
  if avgRatioVal stats amount > 5 then 0.3
  else if avgRatioVal stats amount > 3 then 0.2
  else 0

/-- The maximum-ratio contribution (`src/app.py` lines 147-150). -/
def maxContrib (stats : CustomerStatistics) (amount : ℚ) : ℚ :=
  if maxRatioVal stats amount > 1.5 then 0.4
  else if maxRatioVal stats amount > 1 then 0.2
  else 0

/-- The absolute-amount contribution (`src/app.py` lines 153-156). -/
def amountContrib (amount : ℚ) : ℚ :=
  if amount > 5000 then 0.3 else if amount > 1000 then 0.1 else 0

/-- The raw (pre-cap, pre-discount) fraud score: the sum of the four
additive contributions of `src/app.py` lines 135-156. -/
def rawScore (stats : CustomerStatistics) (amount : ℚ) : ℚ :=
  newCustomerContrib stats + avgContrib stats amount +
    maxContrib stats amount + amountContrib amount

/-- The zero-record used for unknown or new customers
(`src/app.py` lines 92-98). -/
def zeroStats : CustomerStatistics :=
  { transaction_count := 0, avg_amount := 0, max_amount := 0,
    min_amount := 0, total_amount := 0 }

/-- One row of the `customer_stats_overall` data frame. -/
structure StatRow where
  customer_id : ℕ
  transaction_count : ℕ
  avg_amount : ℚ
  max_amount : ℚ
  min_amount : ℚ
  total_amount : ℚ
  deriving Repr, DecidableEq

/-- The statistics extracted from one row (`src/app.py` lines 100-108). -/
def statsOfRow (r : StatRow) : CustomerStatistics :=
  { transaction_count := r.transaction_count, avg_amount := r.avg_amount,
    max_amount := r.max_amount, min_amount := r.min_amount,
    total_amount := r.total_amount }

/-- The statistics-resolution part of `analyze_transaction`
(`src/app.py` lines 79-108): `none` models an unavailable
`customer_stats_overall`; otherwise the frame is filtered on
`customer_id` equality and the first matching row (`iloc[0]`) is used;
an empty filter result yields the zero-record. -/
def lookup_customer_stats (table : Option (List StatRow)) (cid : ℕ) :
    CustomerStatistics :=
  match table with
  | none => zeroStats
  | some rows =>
    match rows.filter (fun r => r.customer_id == cid) with
    | [] => zeroStats
    | r :: _ => statsOfRow r

/-- Division that fails on a zero denominator, used to check that the
real divisions of `analyze_transaction` never divide by zero. -/
def checkedDiv (a b : ℚ) : Option ℚ :=
  if b = 0 then none else some (a / b)

/-- `analyze_transaction` with the two divisions of `src/app.py`
lines 115 and 126 replaced by `checkedDiv`: the whole computation fails
if either division has a zero denominator. -/
def analyze_transaction_checked (stats : CustomerStatistics)
    (amount threshold : ℚ) : Option RiskAssessment := do
  let ratioAvg : ℚ ←
    if stats.avg_amount > 0 then checkedDiv amount stats.avg_amount else some 0
  let avgInds : List FraudIndicator :=
    if stats.avg_amount > 0 then
      if ratioAvg > 5 then [.higherThanAvg ratioAvg]
      else if ratioAvg > 3 then [.higherThanAvg ratioAvg]
      else []
    else
      if amount > 1000 then [.highAmountNewCustomer] else []
  let ratioMax : ℚ ←
    if stats.max_amount > 0 then checkedDiv amount stats.max_amount else some 0
  let maxInds : List FraudIndicator :=
    if stats.max_amount > 0 then
      if ratioMax > 1.5 then [.higherThanMax ratioMax]
      else if ratioMax > 1 then [.exceedsMax]
      else []
    else []
  let s1 : ℚ := if stats.transaction_count < 1 then 0 + 0.5 else 0
  let s2 : ℚ := if ratioAvg > 5 then s1 + 0.3 else if ratioAvg > 3 then s1 + 0.2 else s1
  let s3 : ℚ := if ratioMax > 1.5 then s2 + 0.4 else if ratioMax > 1 then s2 + 0.2 else s2
  let s4 : ℚ := if amount > 5000 then s3 + 0.3 else if amount > 1000 then s3 + 0.1 else s3
  let capped : ℚ := min s4 1
  let fraud_score : ℚ := if stats.transaction_count > 10 then capped * 0.8 else capped
  some
    { predicted_fraud := decide (fraud_score > threshold)
      fraud_score := fraud_score
      threshold := threshold
      customer_stats := stats
      fraud_indicators := avgInds ++ maxInds
      ratioAvgOpt := if stats.avg_amount > 0 then some ratioAvg else none
      ratioMaxOpt := if stats.max_amount > 0 then some ratioMax else none }

/-- The score-accumulation chain of `src/app.py` lines 135-156 in
isolation (the value of the Python variable `fraud_score` just before
the cap of line 159). -/
def chainScore (stats : CustomerStatistics) (amount : ℚ) : ℚ :=
  let s1 : ℚ := if stats.transaction_count < 1 then 0 + 0.5 else 0
  let s2 : ℚ := if avgRatioVal stats amount > 5 then s1 + 0.3
    else if avgRatioVal stats amount > 3 then s1 + 0.2 else s1
  let s3 : ℚ := if maxRatioVal stats amount > 1.5 then s2 + 0.4
    else if maxRatioVal stats amount > 1 then s2 + 0.2 else s2
  if amount > 5000 then s3 + 0.3 else if amount > 1000 then s3 + 0.1 else s3

/-- The indicator list built by `src/app.py` lines 111-132 in isolation:
the contribution of the average-ratio branch followed by the
contribution of the maximum-ratio branch. -/
def indicatorList (stats : CustomerStatistics) (amount : ℚ) : List FraudIndicator :=
  (if stats.avg_amount > 0 then
      if avgRatioVal stats amount > 5 then [.higherThanAvg (avgRatioVal stats amount)]
      else if avgRatioVal stats amount > 3 then [.higherThanAvg (avgRatioVal stats amount)]
      else []
    else if amount > 1000 then [.highAmountNewCustomer] else []) ++
  (if stats.max_amount > 0 then
      if maxRatioVal stats amount > 1.5 then [.higherThanMax (maxRatioVal stats amount)]
      else if maxRatioVal stats amount > 1 then [.exceedsMax]
      else []
    else [])

/-- The `fraud_score` field of the result is the accumulated chain,
capped at `1`, with the `0.8` loyalty factor applied afterwards exactly
when `transaction_count > 10`. -/
theorem fraud_score_unfold (stats : CustomerStatistics) (amount threshold : ℚ) :
    (analyze_transaction stats amount threshold).fraud_score =
      if stats.transaction_count > 10 then min (chainScore stats amount) 1 * 0.8
      else min (chainScore stats amount) 1 := rfl

/-- The `predicted_fraud` field is the strict comparison of the returned
score with the threshold. -/
theorem predicted_fraud_unfold (stats : CustomerStatistics) (amount threshold : ℚ) :
    (analyze_transaction stats amount threshold).predicted_fraud =
      decide ((analyze_transaction stats amount threshold).fraud_score > threshold) := rfl

/-- The `fraud_indicators` field of the result. -/
theorem fraud_indicators_unfold (stats : CustomerStatistics) (amount threshold : ℚ) :
    (analyze_transaction stats amount threshold).fraud_indicators =
      indicatorList stats amount := rfl

/-- The surfaced average ratio of the result. -/
theorem ratioAvgOpt_unfold (stats : CustomerStatistics) (amount threshold : ℚ) :
    (analyze_transaction stats amount threshold).ratioAvgOpt =
      if stats.avg_amount > 0 then some (avgRatioVal stats amount) else none := rfl

/-- The surfaced maximum ratio of the result. -/
theorem ratioMaxOpt_unfold (stats : CustomerStatistics) (amount threshold : ℚ) :
    (analyze_transaction stats amount threshold).ratioMaxOpt =
      if stats.max_amount > 0 then some (maxRatioVal stats amount) else none := rfl

/-- A guarded accumulation step equals the base plus a guarded
contribution. -/
theorem ite_add_shift (c d : Prop) [Decidable c] [Decidable d] (s x y : ℚ) :
    (if c then s + x else if d then s + y else s) =
      s + (if c then x else if d then y else 0) := by
  split_ifs <;> ring

/-- The sequential accumulation of `src/app.py` lines 135-156 equals the
sum of the four independent contributions. -/
theorem chainScore_eq_rawScore (stats : CustomerStatistics) (amount : ℚ) :
    chainScore stats amount = rawScore stats amount := by
  unfold chainScore rawScore newCustomerContrib avgContrib maxContrib amountContrib
  rw [ite_add_shift, ite_add_shift, ite_add_shift]
  split_ifs <;> ring

theorem newCustomerContrib_nonneg (stats : CustomerStatistics) :
    0 ≤ newCustomerContrib stats := by
  unfold newCustomerContrib; split_ifs <;> norm_num

theorem avgContrib_nonneg (stats : CustomerStatistics) (amount : ℚ) :
    0 ≤ avgContrib stats amount := by
  unfold avgContrib; split_ifs <;> norm_num

theorem maxContrib_nonneg (stats : CustomerStatistics) (amount : ℚ) :
    0 ≤ maxContrib stats amount := by
  unfold maxContrib; split_ifs <;> norm_num

theorem amountContrib_nonneg (amount : ℚ) : 0 ≤ amountContrib amount := by
  unfold amountContrib; split_ifs <;> norm_num

theorem rawScore_nonneg (stats : CustomerStatistics) (amount : ℚ) :
    0 ≤ rawScore stats amount := by
  have h1 := newCustomerContrib_nonneg stats
  have h2 := avgContrib_nonneg stats amount
  have h3 := maxContrib_nonneg stats amount
  have h4 := amountContrib_nonneg amount
  unfold rawScore; linarith

theorem avgRatioVal_mono (stats : CustomerStatistics) {a1 a2 : ℚ}
    (h : a1 ≤ a2) : avgRatioVal stats a1 ≤ avgRatioVal stats a2 := by
  unfold avgRatioVal
  split_ifs with hp
  · exact div_le_div_of_nonneg_right h hp.le
  · exact le_refl 0

theorem maxRatioVal_mono (stats : CustomerStatistics) {a1 a2 : ℚ}
    (h : a1 ≤ a2) : maxRatioVal stats a1 ≤ maxRatioVal stats a2 := by
  unfold maxRatioVal
  split_ifs with hp
  · exact div_le_div_of_nonneg_right h hp.le
  · exact le_refl 0

theorem avgContrib_mono (stats : CustomerStatistics) {a1 a2 : ℚ}
    (h : a1 ≤ a2) : avgContrib stats a1 ≤ avgContrib stats a2 := by
  have hr := avgRatioVal_mono stats h
  unfold avgContrib
  split_ifs <;> norm_num <;> linarith

theorem maxContrib_mono (stats : CustomerStatistics) {a1 a2 : ℚ}
    (h : a1 ≤ a2) : maxContrib stats a1 ≤ maxContrib stats a2 := by
  have hr := maxRatioVal_mono stats h
  unfold maxContrib
  split_ifs <;> norm_num <;> linarith

theorem amountContrib_mono {a1 a2 : ℚ} (h : a1 ≤ a2) :
    amountContrib a1 ≤ amountContrib a2 := by
  unfold amountContrib
  split_ifs <;> norm_num <;> linarith

theorem rawScore_mono (stats : CustomerStatistics) {a1 a2 : ℚ}
    (h : a1 ≤ a2) : rawScore stats a1 ≤ rawScore stats a2 := by
  have h2 := avgContrib_mono stats h
  have h3 := maxContrib_mono stats h
  have h4 := amountContrib_mono h
  unfold rawScore; linarith

/-- C1: Scenario B: for stats (20, 100, 200, 10, 2000), amount 600 and
threshold 0.5, the surfaced ratios are 6 and 3, the raw score is 0.7,
the cap leaves 0.7, the loyalty factor gives fraud score 0.56, and the
prediction is fraud. -/
theorem scenarioB_assessment :
    (analyze_transaction ⟨20, 100, 200, 10, 2000⟩ 600 0.5).ratioAvgOpt = some 6 ∧
    (analyze_transaction ⟨20, 100, 200, 10, 2000⟩ 600 0.5).ratioMaxOpt = some 3 ∧
    rawScore ⟨20, 100, 200, 10, 2000⟩ 600 = 0.7 ∧
    min (rawScore ⟨20, 100, 200, 10, 2000⟩ 600) 1 = 0.7 ∧
    (analyze_transaction ⟨20, 100, 200, 10, 2000⟩ 600 0.5).fraud_score = 0.56 ∧
    (analyze_transaction ⟨20, 100, 200, 10, 2000⟩ 600 0.5).predicted_fraud = true := by
  norm_num [analyze_transaction, avgRatioVal, maxRatioVal, rawScore, newCustomerContrib,
    avgContrib, maxContrib, amountContrib, min_def, decide_eq_true_eq]

/-- C2: whenever transaction count exceeds 10, the returned fraud score
is exactly 0.8 times the capped raw score; the cap is not re-applied
after the discount. -/
theorem loyaltyDiscountAfterClamp (stats : CustomerStatistics) (amount threshold : ℚ)
    (h : stats.transaction_count > 10) :
    (analyze_transaction stats amount threshold).fraud_score =
      0.8 * min (rawScore stats amount) 1 := by
  rw [fraud_score_unfold, chainScore_eq_rawScore, if_pos h, mul_comm]

theorem loyaltyDiscountAfterClamp_witness :
    (analyze_transaction ⟨20, 100, 200, 10, 2000⟩ 600 0.5).fraud_score =
      0.8 * min (rawScore ⟨20, 100, 200, 10, 2000⟩ 600) 1 :=
  loyaltyDiscountAfterClamp ⟨20, 100, 200, 10, 2000⟩ 600 0.5 (by decide)

/-- C3: for non-negative amount and threshold the returned fraud score
lies in the closed interval from 0 to 1. -/
theorem fraudScoreInUnitInterval (stats : CustomerStatistics) (amount threshold : ℚ)
    (ha : 0 ≤ amount) (ht : 0 ≤ threshold) :
    0 ≤ (analyze_transaction stats amount threshold).fraud_score ∧
    (analyze_transaction stats amount threshold).fraud_score ≤ 1 := by
  rw [fraud_score_unfold, chainScore_eq_rawScore]
  have h0 := rawScore_nonneg stats amount
  have h1 : 0 ≤ min (rawScore stats amount) 1 := le_min h0 (by norm_num)
  have h2 : min (rawScore stats amount) 1 ≤ 1 := min_le_right _ _
  split_ifs <;> constructor <;> linarith

theorem fraudScoreInUnitInterval_witness :
    0 ≤ (analyze_transaction ⟨20, 100, 200, 10, 2000⟩ 600 0.5).fraud_score ∧
    (analyze_transaction ⟨20, 100, 200, 10, 2000⟩ 600 0.5).fraud_score ≤ 1 :=
  fraudScoreInUnitInterval ⟨20, 100, 200, 10, 2000⟩ 600 0.5 (by norm_num) (by norm_num)

/-- C4: for fixed statistics and threshold, the fraud score is monotone
non-decreasing in the amount. -/
theorem fraudScoreMonotoneInAmount (stats : CustomerStatistics) (threshold : ℚ)
    (a1 a2 : ℚ) (h0 : 0 ≤ a1) (h12 : a1 ≤ a2) :
    (analyze_transaction stats a1 threshold).fraud_score ≤
      (analyze_transaction stats a2 threshold).fraud_score := by
  rw [fraud_score_unfold, fraud_score_unfold, chainScore_eq_rawScore,
    chainScore_eq_rawScore]
  have hr := rawScore_mono stats h12
  have hm : min (rawScore stats a1) 1 ≤ min (rawScore stats a2) 1 :=
    min_le_min hr le_rfl
  split_ifs <;> linarith

theorem fraudScoreMonotoneInAmount_witness :
    (analyze_transaction ⟨20, 100, 200, 10, 2000⟩ 300 0.5).fraud_score ≤
      (analyze_transaction ⟨20, 100, 200, 10, 2000⟩ 600 0.5).fraud_score :=
  fraudScoreMonotoneInAmount ⟨20, 100, 200, 10, 2000⟩ 0.5 300 600
    (by norm_num) (by norm_num)

/-- C5: the returned prediction is the strict comparison of the returned
fraud score with the threshold; equality yields a negative prediction. -/
theorem predictedFraudStrict (stats : CustomerStatistics) (amount threshold : ℚ) :
    ((analyze_transaction stats amount threshold).predicted_fraud = true ↔
      (analyze_transaction stats amount threshold).fraud_score > threshold) ∧
    ((analyze_transaction stats amount threshold).fraud_score = threshold →
      (analyze_transaction stats amount threshold).predicted_fraud = false) := by
  constructor
  · rw [predicted_fraud_unfold]
    exact decide_eq_true_iff
  · intro h
    rw [predicted_fraud_unfold, h]
    simp

theorem predictedFraudStrict_witness :
    (analyze_transaction zeroStats 0 0.5).predicted_fraud = false :=
  (predictedFraudStrict zeroStats 0 0.5).2
    (by norm_num [analyze_transaction, avgRatioVal, maxRatioVal, zeroStats, min_def])

/-- Unfolding of the lookup on an available table. -/
theorem lookup_some (rows : List StatRow) (cid : ℕ) :
    lookup_customer_stats (some rows) cid =
      match rows.filter (fun r => r.customer_id == cid) with
      | [] => zeroStats
      | r :: _ => statsOfRow r := rfl

/-- C6: the statistics lookup is total: an unavailable table or an id
with no matching row yields the zero-record, and when several rows match
the first one is used. -/
theorem lookupTotalDefaultAndFirst (table : Option (List StatRow)) (cid : ℕ) :
    (table = none → lookup_customer_stats table cid = zeroStats) ∧
    (∀ rows, table = some rows → (∀ r ∈ rows, r.customer_id ≠ cid) →
      lookup_customer_stats table cid = zeroStats) ∧
    (∀ rows r rest, table = some rows →
      rows.filter (fun x => x.customer_id == cid) = r :: rest →
      lookup_customer_stats table cid = statsOfRow r) := by
  refine ⟨?_, ?_, ?_⟩
  · rintro rfl; rfl
  · rintro rows rfl hno
    have hf : rows.filter (fun x => x.customer_id == cid) = [] := by
      rw [List.filter_eq_nil_iff]
      intro a ha
      simpa using hno a ha
    rw [lookup_some, hf]
  · rintro rows r rest rfl hf
    rw [lookup_some, hf]

theorem lookupTotalDefaultAndFirst_witness :
    lookup_customer_stats
        (some [⟨7, 20, 100, 200, 10, 2000⟩, ⟨7, 3, 50, 60, 40, 150⟩]) 7 =
      statsOfRow ⟨7, 20, 100, 200, 10, 2000⟩ ∧
    lookup_customer_stats (some [⟨7, 20, 100, 200, 10, 2000⟩]) 9 = zeroStats ∧
    lookup_customer_stats none 7 = zeroStats :=
  ⟨(lookupTotalDefaultAndFirst _ 7).2.2 _ ⟨7, 20, 100, 200, 10, 2000⟩
      [⟨7, 3, 50, 60, 40, 150⟩] rfl rfl,
   (lookupTotalDefaultAndFirst _ 9).2.1 _ rfl (by decide),
   (lookupTotalDefaultAndFirst none 7).1 rfl⟩

/-- C7: the surfaced ratio fields are the exact quotients when their
denominators are positive and are absent otherwise; a zero amount over a
positive denominator surfaces the value 0. -/
theorem ratioFieldsSurfaced (stats : CustomerStatistics) (amount threshold : ℚ) :
    (stats.avg_amount > 0 →
      (analyze_transaction stats amount threshold).ratioAvgOpt =
        some (amount / stats.avg_amount)) ∧
    (¬ stats.avg_amount > 0 →
      (analyze_transaction stats amount threshold).ratioAvgOpt = none) ∧
    (stats.max_amount > 0 →
      (analyze_transaction stats amount threshold).ratioMaxOpt =
        some (amount / stats.max_amount)) ∧
    (¬ stats.max_amount > 0 →
      (analyze_transaction stats amount threshold).ratioMaxOpt = none) ∧
    (stats.avg_amount > 0 → amount = 0 →
      (analyze_transaction stats amount threshold).ratioAvgOpt = some 0) ∧
    (stats.max_amount > 0 → amount = 0 →
      (analyze_transaction stats amount threshold).ratioMaxOpt = some 0) := by
  refine ⟨fun h => ?_, fun h => ?_, fun h => ?_, fun h => ?_,
    fun h h0 => ?_, fun h h0 => ?_⟩
  · rw [ratioAvgOpt_unfold, if_pos h]; unfold avgRatioVal; rw [if_pos h]
  · rw [ratioAvgOpt_unfold, if_neg h]
  · rw [ratioMaxOpt_unfold, if_pos h]; unfold maxRatioVal; rw [if_pos h]
  · rw [ratioMaxOpt_unfold, if_neg h]
  · rw [ratioAvgOpt_unfold, if_pos h]; unfold avgRatioVal
    rw [if_pos h, h0, zero_div]
  · rw [ratioMaxOpt_unfold, if_pos h]; unfold maxRatioVal
    rw [if_pos h, h0, zero_div]

theorem ratioFieldsSurfaced_witness :
    (analyze_transaction ⟨20, 100, 200, 10, 2000⟩ 600 0.5).ratioAvgOpt =
      some (600 / 100) ∧
    (analyze_transaction zeroStats 600 0.5).ratioAvgOpt = none ∧
    (analyze_transaction ⟨20, 100, 200, 10, 2000⟩ 0 0.5).ratioMaxOpt = some 0 :=
  ⟨(ratioFieldsSurfaced ⟨20, 100, 200, 10, 2000⟩ 600 0.5).1 (by norm_num),
   (ratioFieldsSurfaced zeroStats 600 0.5).2.1 (by norm_num [zeroStats]),
   (ratioFieldsSurfaced ⟨20, 100, 200, 10, 2000⟩ 0 0.5).2.2.2.2.2 (by norm_num) rfl⟩

/-- C8: for a customer with no transactions (count 0 and, by the data
model invariant, average 0) the new-customer contribution 0.5 enters the
score and no average-ratio indicator is emitted. -/
theorem newCustomerScoring (stats : CustomerStatistics) (amount threshold : ℚ)
    (hc : stats.transaction_count = 0) (ha : stats.avg_amount = 0) :
    newCustomerContrib stats = 0.5 ∧
    (analyze_transaction stats amount threshold).fraud_score =
      min (0.5 + avgContrib stats amount + maxContrib stats amount +
        amountContrib amount) 1 ∧
    ∀ r : ℚ, FraudIndicator.higherThanAvg r ∉
      (analyze_transaction stats amount threshold).fraud_indicators := by
  have hnc : newCustomerContrib stats = 0.5 := by
    unfold newCustomerContrib
    rw [if_pos (by omega : stats.transaction_count < 1)]
  refine ⟨hnc, ?_, ?_⟩
  · rw [fraud_score_unfold, if_neg (by omega : ¬ stats.transaction_count > 10),
      chainScore_eq_rawScore]
    unfold rawScore
    rw [hnc]
  · intro r
    rw [fraud_indicators_unfold]
    unfold indicatorList
    rw [if_neg (by rw [ha]; norm_num : ¬ stats.avg_amount > 0)]
    split_ifs <;> simp

theorem newCustomerScoring_witness :
    newCustomerContrib zeroStats = 0.5 ∧
    (analyze_transaction zeroStats 1500 0.5).fraud_score =
      min (0.5 + avgContrib zeroStats 1500 + maxContrib zeroStats 1500 +
        amountContrib 1500) 1 ∧
    FraudIndicator.higherThanAvg 6 ∉
      (analyze_transaction zeroStats 1500 0.5).fraud_indicators :=
  ⟨(newCustomerScoring zeroStats 1500 0.5 rfl rfl).1,
   (newCustomerScoring zeroStats 1500 0.5 rfl rfl).2.1,
   (newCustomerScoring zeroStats 1500 0.5 rfl rfl).2.2 6⟩

/-- C9: two statistics records agreeing on count, average and maximum
yield the same score, prediction, indicators and surfaced ratios,
whatever their minimum and total fields. -/
theorem unusedFieldsNoninterference (s1 s2 : CustomerStatistics)
    (amount threshold : ℚ)
    (hc : s1.transaction_count = s2.transaction_count)
    (ha : s1.avg_amount = s2.avg_amount)
    (hm : s1.max_amount = s2.max_amount) :
    (analyze_transaction s1 amount threshold).fraud_score =
      (analyze_transaction s2 amount threshold).fraud_score ∧
    (analyze_transaction s1 amount threshold).predicted_fraud =
      (analyze_transaction s2 amount threshold).predicted_fraud ∧
    (analyze_transaction s1 amount threshold).fraud_indicators =
      (analyze_transaction s2 amount threshold).fraud_indicators ∧
    (analyze_transaction s1 amount threshold).ratioAvgOpt =
      (analyze_transaction s2 amount threshold).ratioAvgOpt ∧
    (analyze_transaction s1 amount threshold).ratioMaxOpt =
      (analyze_transaction s2 amount threshold).ratioMaxOpt := by
  have hra : avgRatioVal s1 amount = avgRatioVal s2 amount := by
    unfold avgRatioVal; rw [ha]
  have hrm : maxRatioVal s1 amount = maxRatioVal s2 amount := by
    unfold maxRatioVal; rw [hm]
  have hcs : chainScore s1 amount = chainScore s2 amount := by
    unfold chainScore; rw [hra, hrm, hc]
  have hfs : (analyze_transaction s1 amount threshold).fraud_score =
      (analyze_transaction s2 amount threshold).fraud_score := by
    rw [fraud_score_unfold, fraud_score_unfold, hcs, hc]
  refine ⟨hfs, ?_, ?_, ?_, ?_⟩
  · rw [predicted_fraud_unfold, predicted_fraud_unfold, hfs]
  · rw [fraud_indicators_unfold, fraud_indicators_unfold]
    unfold indicatorList
    rw [hra, hrm, ha, hm]
  · rw [ratioAvgOpt_unfold, ratioAvgOpt_unfold, hra, ha]
  · rw [ratioMaxOpt_unfold, ratioMaxOpt_unfold, hrm, hm]

theorem unusedFieldsNoninterference_witness :
    (analyze_transaction ⟨20, 100, 200, 10, 2000⟩ 600 0.5).fraud_score =
      (analyze_transaction ⟨20, 100, 200, 77, 1⟩ 600 0.5).fraud_score :=
  (unusedFieldsNoninterference ⟨20, 100, 200, 10, 2000⟩ ⟨20, 100, 200, 77, 1⟩
    600 0.5 rfl rfl rfl).1

/-- C10: the scorer is total for every rational amount and all
statistics: the variant whose divisions fail on a zero denominator never
fails and agrees with the scorer, so both divisions are guarded by a
strictly positive denominator. -/
theorem scorerTotalNoDivisionByZero (stats : CustomerStatistics)
    (amount threshold : ℚ) :
    analyze_transaction_checked stats amount threshold =
      some (analyze_transaction stats amount threshold) := by
  unfold analyze_transaction_checked analyze_transaction checkedDiv
  by_cases h1 : stats.avg_amount > 0 <;> by_cases h2 : stats.max_amount > 0
  · simp [h1, h2, h1.ne', h2.ne', avgRatioVal, maxRatioVal]
  · simp [h1, h2, h1.ne', avgRatioVal, maxRatioVal]
  · simp [h1, h2, h2.ne', avgRatioVal, maxRatioVal]
  · simp [h1, h2, avgRatioVal, maxRatioVal]

end FraudApp
